import Mathlib

/-!
Shallow embedding of the medibot repository (combined medical chatbot and
symptom checker).  The two application variants are embedded in two
namespaces:

* `FullApp` — the two-tier emergency screener of
  `full_symptom_checker_app.py` (call-911 tier scanned before urgent tier).
* `App` — the flat emergency keyword screener, the assessment state machine
  of the `/submit_answer` handler, the patient-summary formatter, the chat
  history update and the chat message validator of `app.py`.

Strings are matched on their underlying character lists so that all
definitions evaluate by kernel reduction; lower-casing is the character-wise
`Char.toLower` and whitespace is `Char.isWhitespace`, both of which agree
with Python `str.lower` and `str.strip` on the ASCII texts the claims are
about.
-/

/-- Python `needle in hay` on character lists: `needle` occurs contiguously
inside `hay`.  The empty needle matches everywhere, as in Python. -/
def pySubstr [BEq α] : List α → List α → Bool
  | needle, [] => needle.isEmpty
  | needle, c :: t => needle.isPrefixOf (c :: t) || pySubstr needle t

/-- A JSON-ish answer value as it arrives in the request body: `None`,
a string, an integer, or a list of strings. -/
inductive Value where
  | vnone
  | vstr (s : String)
  | vnum (n : Int)
  | vlist (xs : List String)
deriving DecidableEq

/-- Python truthiness of a `Value` (`if answer:`). -/
def pyTruthy : Value → Bool
  | .vnone => false
  | .vstr s => !s.data.isEmpty
  | .vnum n => n != 0
  | .vlist xs => !xs.isEmpty

/-- Python `str(value)` conversion. -/
def pyStr : Value → String
  | .vnone => "None"
  | .vstr s => s
  | .vnum n => toString n
  | .vlist xs => "[" ++ String.intercalate ", " (xs.map (fun s => "\x27" ++ s ++ "\x27")) ++ "]"

namespace FullApp

/-- Emergency tier of `full_symptom_checker_app.py`: the source encodes the
no-match tier as the string `"routine"`; the spec calls the same tier
`none`. -/
inductive Level where
  | critical
  | urgent
  | routine
deriving DecidableEq

/-- The dictionary returned by `check_emergency` in
`full_symptom_checker_app.py`. -/
structure Verdict where
  is_emergency : Bool
  level : Level
  message : Option String
deriving DecidableEq

/-- `EMERGENCY_SYMPTOMS["call_911"]["keywords"]` of
`full_symptom_checker_app.py`. -/
def call_911_keywords : List String :=
  ["chest pain", "can\x27t breathe", "difficulty breathing", "cant breathe",
   "unconscious", "passed out", "severe bleeding", "bleeding heavily",
   "seizure", "stroke", "heart attack", "choking", "overdose",
   "suicide", "kill myself", "severe allergic reaction"]

/-- `EMERGENCY_SYMPTOMS["call_911"]["message"]`. -/
def call_911_message : String :=
  "🚨 CALL 911 IMMEDIATELY - This could be a medical emergency!"

/-- `EMERGENCY_SYMPTOMS["urgent_care"]["keywords"]`. -/
def urgent_care_keywords : List String :=
  ["high fever", "severe pain", "persistent vomiting", "vomiting blood",
   "blood in stool", "severe headache", "vision loss", "confused",
   "severe abdominal pain", "deep cut", "broken bone", "can\x27t walk"]

/-- `EMERGENCY_SYMPTOMS["urgent_care"]["message"]`. -/
def urgent_care_message : String :=
  "⚠️ URGENT: Seek immediate medical care today"

/-- `check_emergency` of `full_symptom_checker_app.py`: lower-case the text,
scan the call-911 keywords first, then the urgent-care keywords, returning
on the first substring match. -/
def check_emergency (text : String) : Verdict :=
  let text_lower := text.data.map Char.toLower
  match call_911_keywords.find? (fun kw => pySubstr kw.data text_lower) with
  | some _ => ⟨true, Level.critical, some call_911_message⟩
  | Option.none =>
    match urgent_care_keywords.find? (fun kw => pySubstr kw.data text_lower) with
    | some _ => ⟨true, Level.urgent, some urgent_care_message⟩
    | Option.none => ⟨false, Level.routine, Option.none⟩

end FullApp

namespace App

/-- `EMERGENCY_KEYWORDS` of `app.py` (single flat list, no tiers). -/
def EMERGENCY_KEYWORDS : List String :=
  ["chest pain", "heart attack", "stroke", "can\x27t breathe", "cannot breathe",
   "difficulty breathing", "severe bleeding", "unconscious", "seizure",
   "suicidal", "suicide", "want to die", "overdose", "poisoning",
   "severe allergic", "anaphylaxis", "choking", "drowning",
   "severe head injury", "loss of consciousness", "paralysis",
   "coughing blood", "vomiting blood", "severe abdominal pain"]

/-- `check_emergency` of `app.py`: lower-case the text and return the first
keyword of the flat list occurring as a substring, if any. -/
def check_emergency (text : String) : Bool × Option String :=
  let text_lower := text.data.map Char.toLower
  match EMERGENCY_KEYWORDS.find? (fun kw => pySubstr kw.data text_lower) with
  | some kw => (true, some kw)
  | Option.none => (false, Option.none)

/-- One entry of `ASSESSMENT_QUESTIONS` in `app.py`.  Fields absent from an
entry are `Option.none` (respectively `[]` for `options`). -/
structure Question where
  id : String
  question : String
  type : String
  options : List String
  min : Option Nat
  max : Option Nat
  placeholder : Option String
  required : Bool
deriving DecidableEq

/-- Fallback value for out-of-range indexing; never reached on the paths
proved below. -/
def defaultQuestion : Question :=
  ⟨"", "", "", [], Option.none, Option.none, Option.none, false⟩

/-- `ASSESSMENT_QUESTIONS` of `app.py`: the fixed 7-question schema. -/
def ASSESSMENT_QUESTIONS : List Question :=
  [⟨"main_symptom", "What is your main symptom or health concern?", "text",
     [], Option.none, Option.none, Option.none, true⟩,
   ⟨"duration", "When did this symptom start?", "choice",
     ["Less than 24 hours ago", "1-3 days ago", "4-7 days ago",
      "1-4 weeks ago", "More than a month ago"],
     Option.none, Option.none, Option.none, true⟩,
   ⟨"severity", "On a scale of 1-10, how severe is this symptom?", "scale",
     [], some 1, some 10, Option.none, true⟩,
   ⟨"additional_symptoms", "Are you experiencing any of these additional symptoms?",
     "multiselect",
     ["Fever", "Fatigue", "Nausea", "Vomiting", "Diarrhea", "Headache",
      "Cough", "Shortness of breath", "Dizziness", "Body aches",
      "Loss of appetite"],
     Option.none, Option.none, Option.none, false⟩,
   ⟨"age", "What is your age?", "number",
     [], Option.none, Option.none, Option.none, true⟩,
   ⟨"chronic_conditions", "Do you have any chronic medical conditions?", "text",
     [], Option.none, Option.none,
     some "e.g., diabetes, hypertension, asthma (or \x27None\x27)", false⟩,
   ⟨"medications", "Are you currently taking any medications?", "text",
     [], Option.none, Option.none,
     some "e.g., aspirin, blood pressure medication (or \x27None\x27)", false⟩]

/-- The session assessment dictionary of `app.py`:
`{'answers': ..., 'current_question': ..., 'started': ...}`. -/
structure Assessment where
  answers : List (String × Value)
  current_question : Nat
  started : Bool
deriving DecidableEq

/-- The state written by `/start_assessment` (and by the lazy initialization
inside `/submit_answer`). -/
def init_assessment : Assessment := ⟨[], 0, true⟩

/-- Python dictionary store `d[k] = v`: replace the value at an existing key
in place, otherwise append the new binding at the end. -/
def dictInsert (d : List (String × Value)) (k : String) (v : Value) :
    List (String × Value) :=
  match d with
  | [] => [(k, v)]
  | (k0, v0) :: rest =>
    if k0 == k then (k, v) :: rest else (k0, v0) :: dictInsert rest k v

/-- The JSON body returned by the `/submit_answer` handler: a 400 error, an
emergency short-circuit, completion with the collected answers, or the next
question (the float `progress` field of the source is not modelled;
`current` and `total` are). -/
inductive SubmitResponse where
  | error (msg : String)
  | emergency (keyword : Option String) (message : String) (action : String)
  | complete (message : String) (answers : List (String × Value))
  | next (question : Question) (current : Nat) (total : Nat)
deriving DecidableEq

/-- Python string interpolation of an optional string. -/
def optStr : Option String → String
  | some s => s
  | Option.none => "None"

/-- The `/submit_answer` handler of `app.py` as a transition on the
session's optional assessment state.  A falsy (empty) `question_id` is the
400 error path; a missing assessment is lazily initialized; a truthy
main-symptom answer is screened and an emergency returns without recording;
otherwise the answer is stored under the supplied id, the cursor advances,
and the handler reports completion or the next question. -/
def submit_answer (sess : Option Assessment) (question_id : String)
    (answer : Value) : SubmitResponse × Option Assessment :=
  if question_id == "" then
    (.error "Missing question_id", sess)
  else
    let a := sess.getD init_assessment
    let ec : Bool × Option String :=
      if question_id == "main_symptom" && pyTruthy answer then
        check_emergency (pyStr answer)
      else (false, Option.none)
    if ec.1 then
      (.emergency ec.2
        ("⚠️ EMERGENCY: Your symptom \x27" ++ optStr ec.2 ++
          "\x27 may require immediate medical attention. Please call emergency services (911) or go to the nearest emergency room immediately.")
        "CALL 911 OR GO TO ER",
       some a)
    else
      let a2 : Assessment :=
        ⟨dictInsert a.answers question_id answer, a.current_question + 1, a.started⟩
      if ASSESSMENT_QUESTIONS.length ≤ a2.current_question then
        (.complete "All questions answered" a2.answers, some a2)
      else
        (.next (ASSESSMENT_QUESTIONS.getD a2.current_question defaultQuestion)
          (a2.current_question + 1) ASSESSMENT_QUESTIONS.length,
         some a2)

/-- Submitting a sequence of `(question_id, answer)` pairs one after the
other, collecting every response. -/
def run_all (sess : Option Assessment) :
    List (String × Value) → List SubmitResponse × Option Assessment
  | [] => ([], sess)
  | (q, v) :: rest =>
    let step := submit_answer sess q v
    let tail := run_all step.2 rest
    (step.1 :: tail.1, tail.2)

/-- `', '.join(symptoms)` when the value is a list, `str(...)` otherwise —
the `isinstance(symptoms, list)` dispatch of `format_patient_info`. -/
def additional_symptoms_text : Value → String
  | .vlist xs => String.intercalate ", " xs
  | v => pyStr v

/-- `format_patient_info` of `app.py`: seven sequential appends to
`info_parts`, one per field, in the fixed source order; the first four
fields append whenever the key is present, the last three only when the
value is additionally truthy; the parts are joined with newlines. -/
def format_patient_info (answers : List (String × Value)) : String :=
  let s1 : List String := match List.lookup "age" answers with
    | some v => ["Age: " ++ pyStr v]
    | Option.none => []
  let s2 : List String := match List.lookup "main_symptom" answers with
    | some v => ["Main Symptom: " ++ pyStr v]
    | Option.none => []
  let s3 : List String := match List.lookup "duration" answers with
    | some v => ["Duration: " ++ pyStr v]
    | Option.none => []
  let s4 : List String := match List.lookup "severity" answers with
    | some v => ["Severity: " ++ pyStr v ++ "/10"]
    | Option.none => []
  let s5 : List String := match List.lookup "additional_symptoms" answers with
    | some v => if pyTruthy v then ["Additional Symptoms: " ++ additional_symptoms_text v] else []
    | Option.none => []
  let s6 : List String := match List.lookup "chronic_conditions" answers with
    | some v => if pyTruthy v then ["Chronic Conditions: " ++ pyStr v] else []
    | Option.none => []
  let s7 : List String := match List.lookup "medications" answers with
    | some v => if pyTruthy v then ["Current Medications: " ++ pyStr v] else []
    | Option.none => []
  String.intercalate "\n" (s1 ++ s2 ++ s3 ++ s4 ++ s5 ++ s6 ++ s7)

/-- The fixed ordered field table of the patient summary: key, label, and
whether the source omits the field when its value is falsy (true only for
the last three fields). -/
def SUMMARY_FIELDS : List (String × String × Bool) :=
  [("age", "Age: ", false),
   ("main_symptom", "Main Symptom: ", false),
   ("duration", "Duration: ", false),
   ("severity", "Severity: ", false),
   ("additional_symptoms", "Additional Symptoms: ", true),
   ("chronic_conditions", "Chronic Conditions: ", true),
   ("medications", "Current Medications: ", true)]

/-- Rendering of a single field value in the patient summary. -/
def field_render (key : String) (v : Value) : String :=
  if key == "severity" then pyStr v ++ "/10"
  else if key == "additional_symptoms" then additional_symptoms_text v
  else pyStr v

/-- The lines contributed by one field of the summary table. -/
def fieldLine (answers : List (String × Value)) (f : String × String × Bool) :
    List String :=
  match List.lookup f.1 answers with
  | some v => if f.2.2 && !(pyTruthy v) then [] else [f.2.1 ++ field_render f.1 v]
  | Option.none => []

/-- The patient summary as one pass over the fixed ordered field table:
each present field contributes its line in table order unless the field is
one of the three falsy-omitted ones and its value is falsy. -/
def patient_summary_lines (answers : List (String × Value)) : List String :=
  (SUMMARY_FIELDS.map (fieldLine answers)).flatten

/-- One turn of the chat history (`{'role': ..., 'content': ...}`). -/
structure ChatTurn where
  role : String
  content : String
deriving DecidableEq

/-- Python list slice `l[-n:]`: the suffix of the most recent `n`
elements. -/
def pyTakeLast (n : Nat) (l : List α) : List α := (l.reverse.take n).reverse

/-- `update_chat_history` of `app.py`: append the user turn then the
assistant turn, and truncate to the most recent 20 turns
(`session['messages'][-20:]`). -/
def update_chat_history (messages : List ChatTurn)
    (user_message bot_message : String) : List ChatTurn :=
  pyTakeLast 20 (messages ++ [⟨"user", user_message⟩, ⟨"assistant", bot_message⟩])

/-- The flat turn sequence of a list of `(question, answer)` exchanges:
each exchange contributes a user turn followed by an assistant turn. -/
def turnsOf (pairs : List (String × String)) : List ChatTurn :=
  pairs.flatMap (fun p => [⟨"user", p.1⟩, ⟨"assistant", p.2⟩])

/-- Running a whole chat session: starting from the empty history, apply
`update_chat_history` once per exchange. -/
def run_chat (pairs : List (String × String)) : List ChatTurn :=
  pairs.foldl (fun h p => update_chat_history h p.1 p.2) []

/-- Python `str.strip()` (restricted to the ASCII whitespace characters
space, tab, CR and LF): drop whitespace from both ends. -/
def pyStrip (s : String) : String :=
  String.mk (((s.data.dropWhile Char.isWhitespace).reverse.dropWhile
    Char.isWhitespace).reverse)

/-- `validate_message` of `app.py`: reject empty messages, messages longer
than 1000 characters, and messages shorter than 2 characters after
stripping; accept everything else. -/
def validate_message (msg : String) : Bool × Option String :=
  if msg == "" then (false, some "Message cannot be empty")
  else if 1000 < msg.length then (false, some "Message too long (max 1000 characters)")
  else if (pyStrip msg).length < 2 then (false, some "Message too short")
  else (true, Option.none)

end App

namespace App

lemma submit_answer_store (sess : Option Assessment) (a : Assessment)
    (qid : String) (v : Value)
    (ha : sess.getD init_assessment = a)
    (h0 : (qid == "") = false)
    (h1 : (qid == "main_symptom" && pyTruthy v) = true →
      (check_emergency (pyStr v)).1 = false) :
    submit_answer sess qid v =
      ((if ASSESSMENT_QUESTIONS.length ≤ a.current_question + 1 then
          SubmitResponse.complete "All questions answered" (dictInsert a.answers qid v)
        else
          SubmitResponse.next
            (ASSESSMENT_QUESTIONS.getD (a.current_question + 1) defaultQuestion)
            (a.current_question + 2) ASSESSMENT_QUESTIONS.length),
       some ⟨dictInsert a.answers qid v, a.current_question + 1, a.started⟩) := by
  unfold submit_answer
  rw [h0, ha]
  cases hc : (qid == "main_symptom" && pyTruthy v) with
  | true => simp [hc, h1 hc]; split <;> simp
  | false => simp [hc]; split <;> simp

lemma pyTakeLast_length_le (n : Nat) (l : List α) :
    (pyTakeLast n l).length ≤ n := by
  simp [pyTakeLast]

lemma pyTakeLast_suffix (n : Nat) (l : List α) : pyTakeLast n l <:+ l := by
  have h : l.reverse.take n <+: l.reverse := List.take_prefix n l.reverse
  have h2 : (l.reverse.take n).reverse <:+ l.reverse.reverse :=
    List.reverse_suffix.mpr h
  simpa [pyTakeLast] using h2

lemma take_append_take (n : Nat) (a b : List α) :
    (a ++ b.take n).take n = (a ++ b).take n := by
  rw [List.take_append_eq_append_take, List.take_append_eq_append_take,
    List.take_take, Nat.min_eq_left (Nat.sub_le n a.length)]

lemma pyTakeLast_append (n : Nat) (l m : List α) :
    pyTakeLast n (pyTakeLast n l ++ m) = pyTakeLast n (l ++ m) := by
  simp only [pyTakeLast, List.reverse_append, List.reverse_reverse]
  rw [take_append_take]

lemma pyTakeLast_of_len22 (l : List α) (h : l.length = 22) :
    pyTakeLast 20 l = l.drop 2 := by
  match l, h with
  | a :: b :: rest, h =>
    have hr : rest.reverse.length = 20 := by
      simp only [List.length_reverse]
      simpa using h
    show ((a :: b :: rest).reverse.take 20).reverse = rest
    rw [show (a :: b :: rest).reverse = rest.reverse ++ [b, a] by simp]
    rw [List.take_left' hr]
    simp

lemma turnsOf_length (pairs : List (String × String)) :
    (turnsOf pairs).length = 2 * pairs.length := by
  induction pairs with
  | nil => simp [turnsOf]
  | cons p rest ih =>
    simp only [turnsOf, List.flatMap_cons] at ih ⊢
    simp [ih]
    omega

lemma run_chat_aux (pairs : List (String × String)) (h : List ChatTurn) :
    pairs.foldl (fun acc p => update_chat_history acc p.1 p.2)
      (pyTakeLast 20 h) = pyTakeLast 20 (h ++ turnsOf pairs) := by
  induction pairs generalizing h with
  | nil => simp [turnsOf]
  | cons p rest ih =>
    have hstep : update_chat_history (pyTakeLast 20 h) p.1 p.2 =
        pyTakeLast 20 (h ++ [⟨"user", p.1⟩, ⟨"assistant", p.2⟩]) := by
      simp only [update_chat_history]
      rw [pyTakeLast_append]
    simp only [List.foldl_cons, hstep, ih]
    simp [turnsOf, List.append_assoc]

lemma run_chat_eq (pairs : List (String × String)) :
    run_chat pairs = pyTakeLast 20 (turnsOf pairs) := by
  have h := run_chat_aux pairs []
  simpa [run_chat, pyTakeLast] using h

end App

/-- Claim C1: every text containing a critical-tier keyword as a substring
(after lower-casing, hence in any letter case and with any surrounding text)
is classified by the tiered screener as an emergency of the critical tier,
regardless of any urgent-tier keyword also present, because the critical
tier is scanned first. -/
theorem claim_C1 (text : String)
    (h : ∃ kw ∈ FullApp.call_911_keywords,
      pySubstr kw.data (text.data.map Char.toLower) = true) :
    (FullApp.check_emergency text).is_emergency = true ∧
    (FullApp.check_emergency text).level = FullApp.Level.critical := by
  obtain ⟨kw, hmem, hkw⟩ := h
  have hs : (FullApp.call_911_keywords.find?
      (fun kw => pySubstr kw.data (text.data.map Char.toLower))).isSome :=
    List.find?_isSome.mpr ⟨kw, hmem, hkw⟩
  obtain ⟨k, hk⟩ := Option.isSome_iff_exists.mp hs
  simp [FullApp.check_emergency, hk]

/-- Witness for C1: a mixed-case text containing the critical keyword
"chest pain" and also the urgent keyword "high fever" is classified
critical. -/
theorem claim_C1_witness :
    (FullApp.check_emergency "I have Chest Pain and a high fever").is_emergency = true ∧
    (FullApp.check_emergency "I have Chest Pain and a high fever").level =
      FullApp.Level.critical :=
  claim_C1 "I have Chest Pain and a high fever" ⟨"chest pain", by decide, by decide⟩

/-- Claim C2: with an assessment in progress, a main-symptom answer whose
text contains an emergency keyword returns the emergency status and leaves
the assessment state completely unchanged — the answer is not recorded and
the cursor is not advanced. -/
theorem claim_C2 (a : App.Assessment) (v : Value)
    (ht : pyTruthy v = true)
    (h : ∃ kw ∈ App.EMERGENCY_KEYWORDS,
      pySubstr kw.data ((pyStr v).data.map Char.toLower) = true) :
    (App.submit_answer (some a) "main_symptom" v).2 = some a ∧
    ∃ kw msg act, (App.submit_answer (some a) "main_symptom" v).1 =
      App.SubmitResponse.emergency (some kw) msg act := by
  obtain ⟨kw, hmem, hkw⟩ := h
  have hs : (App.EMERGENCY_KEYWORDS.find?
      (fun kw => pySubstr kw.data ((pyStr v).data.map Char.toLower))).isSome :=
    List.find?_isSome.mpr ⟨kw, hmem, hkw⟩
  obtain ⟨k, hk⟩ := Option.isSome_iff_exists.mp hs
  have hce : App.check_emergency (pyStr v) = (true, some k) := by
    simp [App.check_emergency, hk]
  have e1 : (("main_symptom" : String) == "") = false := by decide
  have e2 : (("main_symptom" : String) == "main_symptom") = true := by decide
  unfold App.submit_answer
  rw [e1]
  simp only [Bool.false_eq_true, if_false, e2, ht, Bool.and_self, if_true,
    Option.getD_some, hce]
  exact ⟨trivial, k, _, _, rfl⟩

/-- Witness for C2: from the freshly started assessment, the main-symptom
answer "I am thinking about suicide" (containing the keyword "suicide")
returns an emergency response and leaves the state unchanged. -/
theorem claim_C2_witness :
    (App.submit_answer (some App.init_assessment) "main_symptom"
      (Value.vstr "I am thinking about suicide")).2 = some App.init_assessment ∧
    ∃ kw msg act,
      (App.submit_answer (some App.init_assessment) "main_symptom"
        (Value.vstr "I am thinking about suicide")).1 =
      App.SubmitResponse.emergency (some kw) msg act :=
  claim_C2 App.init_assessment (Value.vstr "I am thinking about suicide")
    (by decide) ⟨"suicide", by decide, by decide⟩

/-- Counterexample to claim C3: with a fresh assessment whose cursor is 0
(current question `main_symptom`), submitting the out-of-order question id
`duration` is not rejected: the handler records the answer under
`duration`, advances the cursor to 1, and returns the next question
(`status=continue`), so the state is modified and no `InvalidInput` error
occurs. -/
theorem claim_C3_counterexample :
    (App.ASSESSMENT_QUESTIONS.getD 0 App.defaultQuestion).id = "main_symptom" ∧
    App.submit_answer (some App.init_assessment) "duration"
      (Value.vstr "1-3 days ago") =
      (App.SubmitResponse.next
        ⟨"duration", "When did this symptom start?", "choice",
          ["Less than 24 hours ago", "1-3 days ago", "4-7 days ago",
           "1-4 weeks ago", "More than a month ago"],
          Option.none, Option.none, Option.none, true⟩ 2 7,
       some ⟨[("duration", Value.vstr "1-3 days ago")], 1, true⟩) := by
  decide

/-- Claim C3, amended to what the code does: `/submit_answer` performs no
validation of the submitted `question_id` against the cursor and never
rejects an out-of-order submission with an `InvalidInput` error.  For every
non-empty `question_id` the response is never an error — even when the
main-symptom emergency screen fires (supplied id `main_symptom` with a
truthy answer matching an emergency keyword), in which case the emergency
response is returned with nothing recorded; and whenever the submission
does not trigger that screen, the answer is recorded under the supplied id
and the cursor advances by one. -/
theorem claim_C3 (a : App.Assessment) (qid : String) (v : Value)
    (h0 : qid ≠ "") :
    (∀ m, (App.submit_answer (some a) qid v).1 ≠ App.SubmitResponse.error m) ∧
    ((qid = "main_symptom" → pyTruthy v = true →
        (App.check_emergency (pyStr v)).1 = false) →
      (App.submit_answer (some a) qid v).2 =
        some ⟨App.dictInsert a.answers qid v, a.current_question + 1, a.started⟩) := by
  have h0' : (qid == "") = false := beq_eq_false_iff_ne.mpr h0
  cases hc : (qid == "main_symptom" && pyTruthy v) with
  | false =>
    have hstore := App.submit_answer_store (some a) a qid v rfl h0'
      (fun h => absurd h (by rw [hc]; simp))
    rw [hstore]
    constructor
    · intro m
      split <;> simp
    · intro _
      split <;> rfl
  | true =>
    cases hce : (App.check_emergency (pyStr v)).1 with
    | false =>
      have hstore := App.submit_answer_store (some a) a qid v rfl h0'
        (fun _ => hce)
      rw [hstore]
      constructor
      · intro m
        split <;> simp
      · intro _
        split <;> rfl
    | true =>
      have hc' := Bool.and_eq_true_iff.mp hc
      constructor
      · intro m
        simp [App.submit_answer, h0', hc, hce]
      · intro h1
        exact absurd (h1 (by simpa using hc'.1) hc'.2) (by simp [hce])

/-- Witness for the amended C3: the concrete out-of-order submission of the
counterexample is not an error, records under `duration` and advances the
cursor. -/
theorem claim_C3_witness :
    (∀ m, (App.submit_answer (some App.init_assessment) "duration"
      (Value.vstr "1-3 days ago")).1 ≠ App.SubmitResponse.error m) ∧
    (App.submit_answer (some App.init_assessment) "duration"
      (Value.vstr "1-3 days ago")).2 =
      some ⟨App.dictInsert App.init_assessment.answers "duration"
        (Value.vstr "1-3 days ago"),
        App.init_assessment.current_question + 1, App.init_assessment.started⟩ :=
  ⟨(claim_C3 App.init_assessment "duration" (Value.vstr "1-3 days ago")
      (by decide)).1,
   (claim_C3 App.init_assessment "duration" (Value.vstr "1-3 days ago")
      (by decide)).2 (fun h => absurd h (by decide))⟩

/-- Claim C4: starting from the freshly started assessment, submitting one
answer for each of the 7 questions of the fixed schema in order, none of
which triggers the emergency screener, produces six `continue` responses
followed by `complete` on exactly the 7th submission, with every submitted
answer present in the returned answers mapping. -/
theorem claim_C4 (v1 v2 v3 v4 v5 v6 v7 : Value)
    (h : ∀ v ∈ [v1, v2, v3, v4, v5, v6, v7], pyTruthy v = true →
      (App.check_emergency (pyStr v)).1 = false) :
    App.run_all (some App.init_assessment)
      [("main_symptom", v1), ("duration", v2), ("severity", v3),
       ("additional_symptoms", v4), ("age", v5), ("chronic_conditions", v6),
       ("medications", v7)] =
      ([App.SubmitResponse.next (App.ASSESSMENT_QUESTIONS.getD 1 App.defaultQuestion) 2 7,
        App.SubmitResponse.next (App.ASSESSMENT_QUESTIONS.getD 2 App.defaultQuestion) 3 7,
        App.SubmitResponse.next (App.ASSESSMENT_QUESTIONS.getD 3 App.defaultQuestion) 4 7,
        App.SubmitResponse.next (App.ASSESSMENT_QUESTIONS.getD 4 App.defaultQuestion) 5 7,
        App.SubmitResponse.next (App.ASSESSMENT_QUESTIONS.getD 5 App.defaultQuestion) 6 7,
        App.SubmitResponse.next (App.ASSESSMENT_QUESTIONS.getD 6 App.defaultQuestion) 7 7,
        App.SubmitResponse.complete "All questions answered"
          [("main_symptom", v1), ("duration", v2), ("severity", v3),
           ("additional_symptoms", v4), ("age", v5), ("chronic_conditions", v6),
           ("medications", v7)]],
       some ⟨[("main_symptom", v1), ("duration", v2), ("severity", v3),
              ("additional_symptoms", v4), ("age", v5), ("chronic_conditions", v6),
              ("medications", v7)], 7, true⟩) := by
  have hlen : App.ASSESSMENT_QUESTIONS.length = 7 := rfl
  cases ht : pyTruthy v1 with
  | false =>
    simp [App.run_all, App.submit_answer, App.dictInsert, App.init_assessment,
      ht, hlen]
  | true =>
    have hch : (App.check_emergency (pyStr v1)).1 = false := h v1 (by simp) ht
    simp [App.run_all, App.submit_answer, App.dictInsert, App.init_assessment,
      ht, hch, hlen]

/-- Witness for C4: a concrete benign 7-answer run reaches `complete` on
the 7th submission with all answers recorded. -/
theorem claim_C4_witness :
    App.run_all (some App.init_assessment)
      [("main_symptom", Value.vstr "headache"),
       ("duration", Value.vstr "1-3 days ago"),
       ("severity", Value.vstr "5"),
       ("additional_symptoms", Value.vstr "Fatigue"),
       ("age", Value.vstr "30"),
       ("chronic_conditions", Value.vstr "None"),
       ("medications", Value.vstr "None")] =
      ([App.SubmitResponse.next (App.ASSESSMENT_QUESTIONS.getD 1 App.defaultQuestion) 2 7,
        App.SubmitResponse.next (App.ASSESSMENT_QUESTIONS.getD 2 App.defaultQuestion) 3 7,
        App.SubmitResponse.next (App.ASSESSMENT_QUESTIONS.getD 3 App.defaultQuestion) 4 7,
        App.SubmitResponse.next (App.ASSESSMENT_QUESTIONS.getD 4 App.defaultQuestion) 5 7,
        App.SubmitResponse.next (App.ASSESSMENT_QUESTIONS.getD 5 App.defaultQuestion) 6 7,
        App.SubmitResponse.next (App.ASSESSMENT_QUESTIONS.getD 6 App.defaultQuestion) 7 7,
        App.SubmitResponse.complete "All questions answered"
          [("main_symptom", Value.vstr "headache"),
           ("duration", Value.vstr "1-3 days ago"),
           ("severity", Value.vstr "5"),
           ("additional_symptoms", Value.vstr "Fatigue"),
           ("age", Value.vstr "30"),
           ("chronic_conditions", Value.vstr "None"),
           ("medications", Value.vstr "None")]],
       some ⟨[("main_symptom", Value.vstr "headache"),
              ("duration", Value.vstr "1-3 days ago"),
              ("severity", Value.vstr "5"),
              ("additional_symptoms", Value.vstr "Fatigue"),
              ("age", Value.vstr "30"),
              ("chronic_conditions", Value.vstr "None"),
              ("medications", Value.vstr "None")], 7, true⟩) :=
  claim_C4 (Value.vstr "headache") (Value.vstr "1-3 days ago")
    (Value.vstr "5") (Value.vstr "Fatigue") (Value.vstr "30")
    (Value.vstr "None") (Value.vstr "None") (by decide)

/-- Counterexample to claim C5: the claim says every absent or empty field
is omitted, but the formatter emits the line "Main Symptom: " for a present
but empty main-symptom value — the output is not the empty summary, so an
empty field is not omitted. -/
theorem claim_C5_counterexample :
    App.format_patient_info [("main_symptom", Value.vstr "")] = "Main Symptom: " ∧
    App.format_patient_info [("main_symptom", Value.vstr "")] ≠ "" := by
  decide

/-- Claim C5, amended to what the code does: the formatter is deterministic
and emits its lines in the fixed order age, main symptom, duration,
severity, additional symptoms (comma-joined when a list), chronic
conditions, medications — equal to one pass over the ordered field table —
but only the last three fields are omitted when present-and-empty (falsy);
the first four are omitted only when absent. -/
theorem claim_C5 (answers : List (String × Value)) :
    App.format_patient_info answers =
      String.intercalate "\n" (App.patient_summary_lines answers) ∧
    App.format_patient_info answers = App.format_patient_info answers := by
  refine ⟨?_, rfl⟩
  have e1 : App.fieldLine answers ("age", "Age: ", false) =
      (match List.lookup "age" answers with
       | some v => ["Age: " ++ pyStr v]
       | Option.none => []) := by
    cases h : List.lookup "age" answers <;>
      simp [App.fieldLine, App.field_render, h]
  have e2 : App.fieldLine answers ("main_symptom", "Main Symptom: ", false) =
      (match List.lookup "main_symptom" answers with
       | some v => ["Main Symptom: " ++ pyStr v]
       | Option.none => []) := by
    cases h : List.lookup "main_symptom" answers <;>
      simp [App.fieldLine, App.field_render, h]
  have e3 : App.fieldLine answers ("duration", "Duration: ", false) =
      (match List.lookup "duration" answers with
       | some v => ["Duration: " ++ pyStr v]
       | Option.none => []) := by
    cases h : List.lookup "duration" answers <;>
      simp [App.fieldLine, App.field_render, h]
  have e4 : App.fieldLine answers ("severity", "Severity: ", false) =
      (match List.lookup "severity" answers with
       | some v => ["Severity: " ++ pyStr v ++ "/10"]
       | Option.none => []) := by
    cases h : List.lookup "severity" answers <;>
      simp [App.fieldLine, App.field_render, h, String.append_assoc]
  have e5 : App.fieldLine answers ("additional_symptoms", "Additional Symptoms: ", true) =
      (match List.lookup "additional_symptoms" answers with
       | some v => if pyTruthy v then
           ["Additional Symptoms: " ++ App.additional_symptoms_text v] else []
       | Option.none => []) := by
    cases h : List.lookup "additional_symptoms" answers with
    | none => simp [App.fieldLine, h]
    | some v =>
      cases hv : pyTruthy v <;> simp [App.fieldLine, App.field_render, h, hv]
  have e6 : App.fieldLine answers ("chronic_conditions", "Chronic Conditions: ", true) =
      (match List.lookup "chronic_conditions" answers with
       | some v => if pyTruthy v then ["Chronic Conditions: " ++ pyStr v] else []
       | Option.none => []) := by
    cases h : List.lookup "chronic_conditions" answers with
    | none => simp [App.fieldLine, h]
    | some v =>
      cases hv : pyTruthy v <;> simp [App.fieldLine, App.field_render, h, hv]
  have e7 : App.fieldLine answers ("medications", "Current Medications: ", true) =
      (match List.lookup "medications" answers with
       | some v => if pyTruthy v then ["Current Medications: " ++ pyStr v] else []
       | Option.none => []) := by
    cases h : List.lookup "medications" answers with
    | none => simp [App.fieldLine, h]
    | some v =>
      cases hv : pyTruthy v <;> simp [App.fieldLine, App.field_render, h, hv]
  unfold App.format_patient_info App.patient_summary_lines App.SUMMARY_FIELDS
  simp only [List.map_cons, List.map_nil, List.flatten_cons, List.flatten_nil,
    e1, e2, e3, e4, e5, e6, e7, List.append_assoc, List.append_nil]

/-- Counterexample to claim C6: `main_symptom` is a required question, yet
submitting the empty answer for it is not rejected: the empty answer is
recorded, the cursor advances to 1, and the next question is returned. -/
theorem claim_C6_counterexample :
    (App.ASSESSMENT_QUESTIONS.getD 0 App.defaultQuestion).required = true ∧
    (App.ASSESSMENT_QUESTIONS.getD 0 App.defaultQuestion).id = "main_symptom" ∧
    App.submit_answer (some App.init_assessment) "main_symptom" (Value.vstr "") =
      (App.SubmitResponse.next
        ⟨"duration", "When did this symptom start?", "choice",
          ["Less than 24 hours ago", "1-3 days ago", "4-7 days ago",
           "1-4 weeks ago", "More than a month ago"],
          Option.none, Option.none, Option.none, true⟩ 2 7,
       some ⟨[("main_symptom", Value.vstr "")], 1, true⟩) := by
  decide

/-- Claim C6, amended to what the code does: `/submit_answer` performs no
required-field validation.  For every question of the schema (in particular
every required one), a falsy (empty or absent) answer value is accepted
without any error: it is recorded under the question id and the cursor
advances by one (a falsy answer additionally bypasses the emergency
screen). -/
theorem claim_C6 (q : App.Question) (hq : q ∈ App.ASSESSMENT_QUESTIONS)
    (hreq : q.required = true) (a : App.Assessment) (v : Value)
    (hv : pyTruthy v = false) :
    (App.submit_answer (some a) q.id v).2 =
      some ⟨App.dictInsert a.answers q.id v, a.current_question + 1, a.started⟩ ∧
    ∀ m, (App.submit_answer (some a) q.id v).1 ≠ App.SubmitResponse.error m := by
  have h0 : (q.id == "") = false := by
    fin_cases hq <;> decide
  have h1 : (q.id == "main_symptom" && pyTruthy v) = true →
      (App.check_emergency (pyStr v)).1 = false := by
    intro hc
    rw [hv] at hc
    simp at hc
  rw [App.submit_answer_store (some a) a q.id v rfl h0 h1]
  constructor
  · split <;> rfl
  · intro m
    split <;> simp

/-- Witness for the amended C6: the empty answer for the required question
`main_symptom` is recorded and the cursor advances. -/
theorem claim_C6_witness :
    (App.submit_answer (some App.init_assessment)
      (App.Question.id ⟨"main_symptom", "What is your main symptom or health concern?",
        "text", [], Option.none, Option.none, Option.none, true⟩)
      (Value.vstr "")).2 =
      some ⟨App.dictInsert App.init_assessment.answers
        (App.Question.id ⟨"main_symptom", "What is your main symptom or health concern?",
          "text", [], Option.none, Option.none, Option.none, true⟩) (Value.vstr ""),
        App.init_assessment.current_question + 1, App.init_assessment.started⟩ ∧
    ∀ m, (App.submit_answer (some App.init_assessment)
      (App.Question.id ⟨"main_symptom", "What is your main symptom or health concern?",
        "text", [], Option.none, Option.none, Option.none, true⟩)
      (Value.vstr "")).1 ≠ App.SubmitResponse.error m :=
  claim_C6
    ⟨"main_symptom", "What is your main symptom or health concern?",
      "text", [], Option.none, Option.none, Option.none, true⟩
    (by decide) (by decide) App.init_assessment (Value.vstr "") (by decide)

/-- Claim C7: the tiered screener is pure and deterministic; on any text
containing no keyword of either tier (in particular empty or
whitespace-only text) it returns the non-emergency verdict whose tier is
the no-match tier (encoded `"routine"` in the source, `none` in the spec)
with no message, and identical inputs give identical outputs. -/
theorem claim_C7 (text : String)
    (h : ∀ kw ∈ FullApp.call_911_keywords ++ FullApp.urgent_care_keywords,
      pySubstr kw.data (text.data.map Char.toLower) = false) :
    FullApp.check_emergency text = ⟨false, FullApp.Level.routine, Option.none⟩ ∧
    FullApp.check_emergency text = FullApp.check_emergency text := by
  refine ⟨?_, rfl⟩
  have h1 : FullApp.call_911_keywords.find?
      (fun kw => pySubstr kw.data (text.data.map Char.toLower)) = Option.none :=
    List.find?_eq_none.mpr (fun x hx => by
      simp [h x (List.mem_append_left _ hx)])
  have h2 : FullApp.urgent_care_keywords.find?
      (fun kw => pySubstr kw.data (text.data.map Char.toLower)) = Option.none :=
    List.find?_eq_none.mpr (fun x hx => by
      simp [h x (List.mem_append_right _ hx)])
  simp only [FullApp.check_emergency, h1, h2]

/-- Witness for C7: the whitespace-only text consisting of a single space
matches no keyword and yields the non-emergency verdict. -/
theorem claim_C7_witness :
    FullApp.check_emergency " " = ⟨false, FullApp.Level.routine, Option.none⟩ ∧
    FullApp.check_emergency " " = FullApp.check_emergency " " :=
  claim_C7 " " (by decide)

/-- Claim C8: after any sequence of exchanges (each appended as a user turn
followed by an assistant turn), the stored chat history equals the most
recent 20 turns of the full turn sequence: it never exceeds 20 turns, it is
a suffix of the full oldest-first sequence (order preserved), and after
exactly 11 exchanges (22 turns) precisely the oldest 2 turns are
dropped. -/
theorem claim_C8 (pairs : List (String × String)) :
    App.run_chat pairs = App.pyTakeLast 20 (App.turnsOf pairs) ∧
    (App.run_chat pairs).length ≤ 20 ∧
    App.run_chat pairs <:+ App.turnsOf pairs ∧
    (pairs.length = 11 → App.run_chat pairs = (App.turnsOf pairs).drop 2) := by
  have he := App.run_chat_eq pairs
  refine ⟨he, ?_, ?_, ?_⟩
  · rw [he]
    exact App.pyTakeLast_length_le _ _
  · rw [he]
    exact App.pyTakeLast_suffix _ _
  · intro h11
    rw [he]
    exact App.pyTakeLast_of_len22 _ (by rw [App.turnsOf_length, h11])

/-- Witness for C8: after 11 concrete exchanges the history is exactly the
full 22-turn sequence with the oldest 2 turns dropped (and is within the
20-turn bound). -/
theorem claim_C8_witness :
    (App.run_chat [("q1", "a1"), ("q2", "a2"), ("q3", "a3"), ("q4", "a4"),
      ("q5", "a5"), ("q6", "a6"), ("q7", "a7"), ("q8", "a8"), ("q9", "a9"),
      ("q10", "a10"), ("q11", "a11")]).length ≤ 20 ∧
    App.run_chat [("q1", "a1"), ("q2", "a2"), ("q3", "a3"), ("q4", "a4"),
      ("q5", "a5"), ("q6", "a6"), ("q7", "a7"), ("q8", "a8"), ("q9", "a9"),
      ("q10", "a10"), ("q11", "a11")] =
      (App.turnsOf [("q1", "a1"), ("q2", "a2"), ("q3", "a3"), ("q4", "a4"),
        ("q5", "a5"), ("q6", "a6"), ("q7", "a7"), ("q8", "a8"), ("q9", "a9"),
        ("q10", "a10"), ("q11", "a11")]).drop 2 :=
  ⟨(claim_C8 [("q1", "a1"), ("q2", "a2"), ("q3", "a3"), ("q4", "a4"),
      ("q5", "a5"), ("q6", "a6"), ("q7", "a7"), ("q8", "a8"), ("q9", "a9"),
      ("q10", "a10"), ("q11", "a11")]).2.1,
   (claim_C8 [("q1", "a1"), ("q2", "a2"), ("q3", "a3"), ("q4", "a4"),
      ("q5", "a5"), ("q6", "a6"), ("q7", "a7"), ("q8", "a8"), ("q9", "a9"),
      ("q10", "a10"), ("q11", "a11")]).2.2.2 rfl⟩

set_option maxRecDepth 8000 in
/-- Claim C9: the chat message validator rejects exactly the messages that
are empty, longer than 1000 characters, or shorter than 2 characters after
trimming whitespace; in particular the empty string, a 1001-character
string and a 1-character string are rejected, and the 2-character string
"hi" is accepted. -/
theorem claim_C9 (msg : String) :
    ((App.validate_message msg).1 = true ↔
      (msg ≠ "" ∧ msg.length ≤ 1000 ∧ 2 ≤ (App.pyStrip msg).length)) ∧
    (App.validate_message "").1 = false ∧
    (App.validate_message (String.mk (List.replicate 1001 'a'))).1 = false ∧
    (App.validate_message "a").1 = false ∧
    (App.validate_message "hi").1 = true := by
  refine ⟨?_, by decide, by decide, by decide, by decide⟩
  unfold App.validate_message
  by_cases h1 : msg = ""
  · subst h1
    decide
  · have h1' : (msg == "") = false := by simpa using h1
    simp only [h1', Bool.false_eq_true, if_false]
    by_cases h2 : 1000 < msg.length
    · simp only [if_pos h2]
      constructor
      · intro hfalse
        exact absurd hfalse (by simp)
      · rintro ⟨-, hle, -⟩
        omega
    · simp only [if_neg h2]
      by_cases h3 : (App.pyStrip msg).length < 2
      · simp only [if_pos h3]
        constructor
        · intro hfalse
          exact absurd hfalse (by simp)
        · rintro ⟨-, -, hge⟩
          omega
      · simp only [if_neg h3]
        constructor
        · intro _
          exact ⟨h1, by omega, by omega⟩
        · intro _
          trivial

set_option maxRecDepth 8000 in
/-- Counterexample to claim C10: submitting to a session with no prior
assessment state with a main-symptom emergency answer does initialize a
fresh assessment, but the answer is not recorded and the cursor stays at 0
(not 1): the handler returns the emergency response instead. -/
theorem claim_C10_counterexample :
    App.submit_answer Option.none "main_symptom" (Value.vstr "chest pain") =
      (App.SubmitResponse.emergency (some "chest pain")
        "⚠️ EMERGENCY: Your symptom \x27chest pain\x27 may require immediate medical attention. Please call emergency services (911) or go to the nearest emergency room immediately."
        "CALL 911 OR GO TO ER",
       some App.init_assessment) ∧
    App.init_assessment.current_question = 0 ∧
    App.init_assessment.answers = [] := by
  decide

/-- Claim C10, amended to what the code does: submitting an answer to a
session with no existing assessment state does not fail; the handler
silently initializes a fresh assessment with empty answers and cursor 0,
and — provided the supplied `question_id` is non-empty and the answer does
not trigger the main-symptom emergency screen — records the answer under
the supplied id and advances the cursor to 1, returning the question at
index 1 (an emergency answer instead returns the emergency response with
the fresh assessment left at cursor 0 and empty answers). -/
theorem claim_C10 (qid : String) (v : Value)
    (h0 : qid ≠ "")
    (h1 : qid = "main_symptom" → pyTruthy v = true →
      (App.check_emergency (pyStr v)).1 = false) :
    App.submit_answer Option.none qid v =
      (App.SubmitResponse.next (App.ASSESSMENT_QUESTIONS.getD 1 App.defaultQuestion) 2 7,
       some ⟨[(qid, v)], 1, true⟩) := by
  have h0' : (qid == "") = false := beq_eq_false_iff_ne.mpr h0
  have h1' : (qid == "main_symptom" && pyTruthy v) = true →
      (App.check_emergency (pyStr v)).1 = false := by
    intro hc
    have hc' := Bool.and_eq_true_iff.mp hc
    exact h1 (by simpa using hc'.1) hc'.2
  rw [App.submit_answer_store Option.none App.init_assessment qid v rfl h0' h1']
  have hlen : App.ASSESSMENT_QUESTIONS.length = 7 := rfl
  simp [App.init_assessment, App.dictInsert, hlen]

/-- Witness for the amended C10: with no prior assessment state, submitting
`("age", "30")` initializes the assessment, records the answer under `age`
and advances the cursor to 1. -/
theorem claim_C10_witness :
    App.submit_answer Option.none "age" (Value.vstr "30") =
      (App.SubmitResponse.next (App.ASSESSMENT_QUESTIONS.getD 1 App.defaultQuestion) 2 7,
       some ⟨[("age", Value.vstr "30")], 1, true⟩) :=
  claim_C10 "age" (Value.vstr "30") (by decide) (fun h => absurd h (by decide))
